import Mathlib

/-!
Verification of the evohome_logger collector (src/evohome_logger.py).

The script pulls heating telemetry (zone snapshots plus an installation
topology) from a remote API, normalises the records into InfluxDB points,
and delivers them with an on-disk offline buffer, a DNS IP cache and a
credential cache for resilience.

Shallow embedding conventions:
- JSON-like Python values are `JVal`; dicts are association lists with
  unique keys (Python dict literals with duplicate keys keep the last
  binding; none of the modelled data builds such a literal).
- Python truthiness is `truthy`; `a or b` chains are `orChain`.
- `dict.get` is `jGet` (missing key yields `JVal.vnull`, Python's `None`).
  Calling `.get` on a non-dict raises `TypeError` in Python; the model
  returns `vnull` there — no modelled execution reaches that state, since
  all claim inputs are well-shaped JSON documents.
- Iterating a JSON value that is not a list raises `TypeError` in Python
  (or iterates dict keys); `asList` returns `[]` there, again unreachable
  for well-shaped inputs.
- The wall clock (`datetime.now`, `time.time()`) is passed as an explicit
  argument; filesystem cache files are passed as `Option` values (`none`
  means the file is absent or undecodable, exactly `load_json`'s `None`).
- Fallible external effects (DNS lookup, InfluxDB write, file unlink and
  atomic JSON write) are parameters of the functions that perform them.
- Python's builtin `str` on numbers and containers is abstracted by
  `pyStrNum` / fixed placeholder strings; every claim exercises `str`
  only on strings, where the model is exact.
-/

/-- A JSON-like Python value: `None`, bool, number, string, list, dict. -/
inductive JVal where
  | vnull
  | vbool (b : Bool)
  | vnum (q : ℚ)
  | vstr (s : String)
  | vlist (xs : List JVal)
  | vdict (kvs : List (String × JVal))

/-- Association-list lookup used for modelled Python dicts. -/
def assocGet {α : Type} (k : String) : List (String × α) → Option α
  | [] => none
  | (k2, v) :: rest => if k2 = k then some v else assocGet k rest

/-- Python dict assignment `d[k] = v`: overwrite in place, else append. -/
def dictSet {α : Type} (d : List (String × α)) (k : String) (v : α) :
    List (String × α) :=
  if (assocGet k d).isSome then
    d.map (fun kv => if kv.1 = k then (k, v) else kv)
  else
    d ++ [(k, v)]

/-- Python truthiness of a JSON-like value. -/
def truthy : JVal → Bool
  | .vnull => false
  | .vbool b => b
  | .vnum q => q != 0
  | .vstr s => s != ""
  | .vlist xs => !xs.isEmpty
  | .vdict d => !d.isEmpty

/-- `d.get(k)` with default `None`; `vnull` on a non-dict (see header). -/
def jGet (v : JVal) (k : String) : JVal :=
  match v with
  | .vdict d => (assocGet k d).getD .vnull
  | _ => .vnull

/-- A Python `x1 or x2 or ... or dflt` chain: the first truthy value,
otherwise the final operand. -/
def orChain (xs : List JVal) (dflt : JVal) : JVal :=
  match xs with
  | [] => dflt
  | x :: rest => if truthy x then x else orChain rest dflt

/-- Python `v == s` where `s` is a `str`: true only for an equal string
(a number or `None` never equals a string). -/
def pyEqStr (v : JVal) (s : String) : Bool :=
  match v with
  | .vstr t => t == s
  | _ => false

/-- Iterate a JSON value as a list; `[]` on a non-list (see header). -/
def asList : JVal → List JVal
  | .vlist xs => xs
  | _ => []

/-- Abstraction of Python `str` on a number (`str(21.5) = "21.5"`). The
exact decimal rendering is irrelevant to every claim, which only apply
`str` to strings; any injective-enough stand-in suffices. -/
def pyStrNum (q : ℚ) : String :=
  if q.den = 1 then toString q.num else toString q

/-- Python `str(v)`. Exact on strings, `None` and bools; container
renderings are placeholders (no modelled input stringifies a container). -/
def pyStr : JVal → String
  | .vnull => "None"
  | .vbool b => if b then "True" else "False"
  | .vnum q => pyStrNum q
  | .vstr s => s
  | .vlist _ => "<list>"
  | .vdict _ => "<dict>"

/-- Accumulate a decimal digit string into a natural number; fails on a
non-digit. An empty list gives `some 0`; callers guard emptiness. -/
def decDigitsVal (cs : List Char) : Option ℕ :=
  cs.foldl
    (fun acc c =>
      acc.bind (fun n => if c.isDigit then some (10 * n + (c.toNat - 48)) else none))
    (some 0)

/-- Parse `digits [. digits]` as a rational (Python float mantissa: at
least one digit overall; `".5"`, `"5."` and `"5"` are all accepted). -/
def parseMantissa (cs : List Char) : Option ℚ :=
  let ip := cs.takeWhile (fun c => c != '.')
  match cs.dropWhile (fun c => c != '.') with
  | [] => if ip.isEmpty then none else (decDigitsVal ip).map (fun n => (n : ℚ))
  | _ :: fp =>
    if ip.isEmpty && fp.isEmpty then none
    else
      match decDigitsVal ip, decDigitsVal fp with
      | some i, some f => some ((i : ℚ) + (f : ℚ) / (10 : ℚ) ^ fp.length)
      | _, _ => none

/-- Parse an optionally signed decimal integer (a float exponent). -/
def parseSignedInt (cs : List Char) : Option ℤ :=
  match cs with
  | '-' :: rest =>
    if rest.isEmpty then none else (decDigitsVal rest).map (fun n => -(n : ℤ))
  | '+' :: rest =>
    if rest.isEmpty then none else (decDigitsVal rest).map (fun n => (n : ℤ))
  | _ => if cs.isEmpty then none else (decDigitsVal cs).map (fun n => (n : ℤ))

/-- `10 ^ e` for an integer exponent, as a rational. -/
def ratPow10 (e : ℤ) : ℚ :=
  if 0 ≤ e then (10 : ℚ) ^ e.toNat else 1 / (10 : ℚ) ^ (-e).toNat

/-- Parse an unsigned float literal `mantissa [e exponent]`. -/
def parseUnsignedFloat (cs : List Char) : Option ℚ :=
  let mant := cs.takeWhile (fun c => c != 'e' && c != 'E')
  match cs.dropWhile (fun c => c != 'e' && c != 'E') with
  | [] => parseMantissa mant
  | _ :: ex =>
    match parseMantissa mant, parseSignedInt ex with
    | some m, some e => some (m * ratPow10 e)
    | _, _ => none

/-- Strip leading and trailing whitespace from a character list
(Python `str.strip()` as applied by `float`). -/
def stripChars (cs : List Char) : List Char :=
  ((cs.dropWhile Char.isWhitespace).reverse.dropWhile Char.isWhitespace).reverse

/-- Python `float(s)` on a string: strip whitespace, optional sign,
decimal mantissa, optional exponent; `none` models `ValueError`.
(Python additionally accepts `inf`/`nan` and digit-group underscores;
no modelled input uses them.) -/
def parseFloat (s : String) : Option ℚ :=
  match stripChars s.toList with
  | '-' :: rest => (parseUnsignedFloat rest).map Neg.neg
  | '+' :: rest => parseUnsignedFloat rest
  | cs => if cs.isEmpty then none else parseUnsignedFloat cs

/-- `safe_float` (src line 266): `float(value)` with `None` passed through
and `TypeError`/`ValueError` mapped to `None`. Note Python's
`float(True) = 1.0`; containers raise `TypeError`. -/
def safe_float : JVal → Option ℚ
  | .vnull => none
  | .vbool b => some (if b then 1 else 0)
  | .vnum q => some q
  | .vstr s => parseFloat s
  | .vlist _ => none
  | .vdict _ => none

example : (parseFloat "21.5").isSome = true := by decide
example : parseFloat "abc" = none := by decide
example : parseFloat "" = none := by decide
example : parseFloat "21.5" = some (43 / 2 : ℚ) := by
  have h : parseFloat "21.5"
      = some (((21 : ℕ) : ℚ) + ((5 : ℕ) : ℚ) / (10 : ℚ) ^ (1 : ℕ)) := rfl
  rw [h]; norm_num

/-! ## Points and the InfluxDB line protocol -/

/-- An InfluxDB field value: float, int, string or bool
(`influxdb_client.Point` field types used by the script). -/
inductive FieldVal where
  | fnum (q : ℚ)
  | fint (n : ℤ)
  | fstr (s : String)
  | fbool (b : Bool)
deriving DecidableEq

/-- An InfluxDB point under construction: measurement name, tags, fields
and an optional timestamp. Tag and field keys are unique per construction
site in the script, so ordered association lists model the client's
dictionaries exactly. -/
structure Point where
  name : String
  tags : List (String × String)
  fields : List (String × FieldVal)
  time : Option ℤ
deriving DecidableEq

/-- `Point.tag(k, v)`. -/
def Point.tag (p : Point) (k v : String) : Point :=
  { p with tags := p.tags ++ [(k, v)] }

/-- `Point.field(k, v)`. -/
def Point.field (p : Point) (k : String) (v : FieldVal) : Point :=
  { p with fields := p.fields ++ [(k, v)] }

/-- `Point.time(ts)`. -/
def Point.setTime (p : Point) (t : ℤ) : Point :=
  { p with time := some t }

/-- Escape the listed characters in a string with a backslash. -/
def escapeStr (special : List Char) (s : String) : String :=
  String.join (s.toList.map
    (fun c => if c ∈ special then "\\" ++ c.toString else c.toString))

/-- Render a field value for the line protocol. The client renders
floats via Python `repr`; `pyStrNum` stands in for that rendering (never
inspected by a claim). -/
def fieldValStr : FieldVal → String
  | .fnum q => pyStrNum q
  | .fint n => toString n ++ "i"
  | .fstr s => "\"" ++ escapeStr ['"', '\\'] s ++ "\""
  | .fbool b => if b then "true" else "false"

/-- `Point.to_line_protocol()`: the empty string when the point has no
fields (the client's zero-field guard), otherwise
`measurement[,tag=v]* field=v[,field=v]* [timestamp]`. -/
def to_line_protocol (p : Point) : String :=
  if p.fields = [] then ""
  else
    escapeStr [',', ' '] p.name
      ++ String.join (p.tags.map
           (fun kv => "," ++ escapeStr [',', ' ', '='] kv.1 ++ "="
                        ++ escapeStr [',', ' ', '='] kv.2))
      ++ " "
      ++ String.intercalate ","
           (p.fields.map
             (fun kv => escapeStr [',', ' ', '='] kv.1 ++ "=" ++ fieldValStr kv.2))
      ++ (match p.time with
          | some t => " " ++ toString t
          | none => "")

/-! ## Record Transformer (src lines 275-396) -/

/-- The per-zone metadata dict stored by `extract_zone_meta`
(src lines 287-294): six fixed keys, modelled as a structure. -/
structure ZoneMetaRec where
  system_id : JVal
  heat_demand : JVal
  setpoint_status : JVal
  temperature_status : JVal
  active_faults : JVal
  zone_type : JVal

/-- `zone_meta.get(zone_id, {})`'s default: a meta dict with every key
missing (`.get` on `{}` yields `None`, i.e. `vnull`). -/
def emptyZoneMeta : ZoneMetaRec :=
  { system_id := .vnull, heat_demand := .vnull, setpoint_status := .vnull,
    temperature_status := .vnull, active_faults := .vnull, zone_type := .vnull }

/-- `system.get("systemId") or system.get("systemID")` (src lines 281, 304). -/
def system_id_of (sys : JVal) : JVal :=
  if truthy (jGet sys "systemId") then jGet sys "systemId" else jGet sys "systemID"

/-- The zone identity computed inside `extract_zone_meta` (src line 284):
`str(zone.get("zoneId") or zone.get("zoneID") or zone.get("id") or "")`. -/
def meta_zone_id (z : JVal) : String :=
  pyStr (orChain [jGet z "zoneId", jGet z "zoneID", jGet z "id"] (.vstr ""))

/-- `extract_zone_meta` (src lines 275-295): walk
gateways → temperatureControlSystems → zones, indexing each zone's
metadata by its identity; zones with an empty identity are skipped. -/
def extract_zone_meta (installation : JVal) : List (String × ZoneMetaRec) :=
  (asList (orChain [jGet installation "gateways"] (.vlist []))).foldl
    (fun acc gw =>
      (asList (orChain [jGet gw "temperatureControlSystems"] (.vlist []))).foldl
        (fun acc2 sys =>
          (asList (orChain [jGet sys "zones"] (.vlist []))).foldl
            (fun acc3 z =>
              let zone_id := meta_zone_id z
              if zone_id = "" then acc3
              else
                dictSet acc3 zone_id
                  { system_id := system_id_of sys,
                    heat_demand := jGet z "heatDemand",
                    setpoint_status := orChain [jGet z "setpointStatus"] (.vdict []),
                    temperature_status :=
                      orChain [jGet z "temperatureStatus"] (.vdict []),
                    active_faults := orChain [jGet z "activeFaults"] (.vlist []),
                    zone_type := jGet z "zoneType" })
            acc2)
        acc)
    []

/-- The flat DHW record appended by `extract_dhw` (src lines 310-318). -/
structure DhwRec where
  system_id : JVal
  status : JVal
  temperature : Option ℚ
  is_available : JVal
  mode : JVal

/-- `extract_dhw` (src lines 298-319): one record per control system
whose `dhw` sub-document is truthy. -/
def extract_dhw (installation : JVal) : List DhwRec :=
  (asList (orChain [jGet installation "gateways"] (.vlist []))).foldl
    (fun acc gw =>
      (asList (orChain [jGet gw "temperatureControlSystems"] (.vlist []))).foldl
        (fun acc2 sys =>
          let dhw := orChain [jGet sys "dhw"] (.vdict [])
          if ¬ truthy dhw then acc2
          else
            let dhw_state := orChain [jGet dhw "stateStatus"] (.vdict [])
            let temp_status := orChain [jGet dhw "temperatureStatus"] (.vdict [])
            acc2 ++ [{ system_id := system_id_of sys,
                       status := orChain [jGet dhw_state "status"]
                                   (jGet dhw_state "mode"),
                       temperature := safe_float (jGet temp_status "temperature"),
                       is_available := jGet dhw_state "isAvailable",
                       mode := jGet dhw_state "mode" }])
        acc)
    []

/-- The snapshot zone identity (src line 328):
`str(zone.get("id") or zone.get("zoneId") or zone.get("zoneID") or
zone.get("name") or "unknown")`. -/
def zone_snapshot_id (z : JVal) : String :=
  pyStr (orChain [jGet z "id", jGet z "zoneId", jGet z "zoneID", jGet z "name"]
    (.vstr "unknown"))

/-- `zone_meta.get(zone_id, {})` (src line 329): the metadata for the
snapshot's zone identity, defaulting to an empty dict. -/
def zone_meta_of (zone_meta : List (String × ZoneMetaRec)) (z : JVal) :
    ZoneMetaRec :=
  (assocGet (zone_snapshot_id z) zone_meta).getD emptyZoneMeta

/-- src lines 339-341: `safe_float(zone.get("temp"))`, falling back to
`safe_float((meta.get("temperature_status") or {}).get("temperature"))`. -/
def zone_temp_value (meta : ZoneMetaRec) (z : JVal) : Option ℚ :=
  match safe_float (jGet z "temp") with
  | some v => some v
  | none =>
    safe_float (jGet (orChain [meta.temperature_status] (.vdict [])) "temperature")

/-- src lines 345-347: `safe_float(zone.get("setpoint"))`, falling back to
`safe_float((meta.get("setpoint_status") or {}).get("targetHeatTemperature"))`. -/
def zone_setpoint_value (meta : ZoneMetaRec) (z : JVal) : Option ℚ :=
  match safe_float (jGet z "setpoint") with
  | some v => some v
  | none =>
    safe_float (jGet (orChain [meta.setpoint_status] (.vdict []))
      "targetHeatTemperature")

/-- src lines 351-353: `safe_float(zone.get("heat_demand"))`, falling
back to `safe_float(meta.get("heat_demand"))`. -/
def zone_heat_demand_value (meta : ZoneMetaRec) (z : JVal) : Option ℚ :=
  match safe_float (jGet z "heat_demand") with
  | some v => some v
  | none => safe_float meta.heat_demand

/-- src line 357: `zone.get("status") or zone.get("mode") or
(meta.get("setpoint_status") or {}).get("status")`. -/
def zone_status_value (meta : ZoneMetaRec) (z : JVal) : JVal :=
  orChain [jGet z "status", jGet z "mode"]
    (jGet (orChain [meta.setpoint_status] (.vdict [])) "status")

/-- src line 361: `meta.get("active_faults") or []`. -/
def zone_faults_value (meta : ZoneMetaRec) : JVal :=
  orChain [meta.active_faults] (.vlist [])

/-- The recurring `if value is not None: point = point.field(key, value)`
step (src lines 342-343, 348-349, 354-355). -/
def addOpt (p : Point) (k : String) (o : Option ℚ) : Point :=
  match o with
  | some v => p.field k (.fnum v)
  | none => p

/-- src lines 361-363: `if isinstance(faults, list):
point = point.field("fault_count", len(faults))`. -/
def addFaults (p : Point) (fv : JVal) : Point :=
  match fv with
  | .vlist xs => p.field "fault_count" (.fint xs.length)
  | _ => p

/-- The body of the per-snapshot loop of `build_points`
(src lines 327-365): build one zone point, before the zero-field check. -/
def build_zone_point (ts : ℤ) (zone_meta : List (String × ZoneMetaRec))
    (z : JVal) : Point :=
  let zone_id := zone_snapshot_id z
  let meta := zone_meta_of zone_meta z
  let p : Point := { name := "evohome_zone", tags := [("zone_id", zone_id)],
                     fields := [], time := none }
  let p := if truthy (jGet z "name") then p.tag "zone" (pyStr (jGet z "name")) else p
  let p := if truthy meta.system_id then p.tag "system_id" (pyStr meta.system_id) else p
  let p := if truthy meta.zone_type then p.tag "zone_type" (pyStr meta.zone_type) else p
  let p := addOpt p "temperature" (zone_temp_value meta z)
  let p := addOpt p "setpoint" (zone_setpoint_value meta z)
  let p := addOpt p "heat_demand" (zone_heat_demand_value meta z)
  let status := zone_status_value meta z
  let p := if truthy status then p.field "status" (.fstr (pyStr status)) else p
  let p := addFaults p (zone_faults_value meta)
  p.setTime ts

/-- The body of the DHW loop of `build_points` (src lines 369-380):
build one `evohome_dhw` point, before the zero-field check. -/
def build_dhw_point (ts : ℤ) (rec : DhwRec) : Point :=
  let p : Point := { name := "evohome_dhw",
                     tags := [("system_id", pyStr rec.system_id)],
                     fields := [], time := some ts }
  let p := if truthy rec.status then p.field "status" (.fstr (pyStr rec.status)) else p
  let p := if truthy rec.mode then p.field "mode" (.fstr (pyStr rec.mode)) else p
  let p := match rec.temperature with
           | some v => p.field "temperature" (.fnum v)
           | none => p
  let p := match rec.is_available with
           | .vnull => p
           | av => p.field "is_available" (.fbool (truthy av))
  p

/-- `build_points` (src lines 322-385): map the snapshot list and the
topology's DHW records to points, keeping only points whose line
protocol is non-empty (`if point.to_line_protocol():`), i.e. points with
at least one field. The cycle timestamp `ts` is `datetime.now(utc)`. -/
def build_points (temperatures : List JVal) (installation : JVal) (ts : ℤ) :
    List Point :=
  let zone_meta := extract_zone_meta installation
  (temperatures.map (build_zone_point ts zone_meta)).filter
      (fun p => to_line_protocol p != "")
    ++ ((extract_dhw installation).map (build_dhw_point ts)).filter
      (fun p => to_line_protocol p != "")

/-! ## Offline buffer and delivery (src lines 388-432)

The buffer file `offline_buffer.json` holds `{"records": [...]}`;
in the model its content is the records list itself, with `none` for a
missing or undecodable file (`load_json` returning `None`). Encoded
lines are the opaque strings produced by `to_line_protocol`. -/

/-- `points_to_lines` (src lines 388-396): encode each point, keeping
non-empty lines. (`if not rec: continue` skips only `None` list entries,
which a `List Point` cannot contain.) -/
def points_to_lines (records : List Point) : List String :=
  records.foldr
    (fun rec lines =>
      let line := to_line_protocol rec
      if line != "" then line :: lines else lines)
    []

/-- `load_offline_records` (src lines 399-401): the buffered lines, or
`[]` when the buffer file is absent. -/
def load_offline_records (file : Option (List String)) : List String :=
  file.getD []

/-- Outcome of one `write_points` call: its return value, the buffer file
afterwards, and every payload handed to the sink's write API. -/
structure WriteOutcome where
  success : Bool
  buffer : Option (List String)
  sinkAttempts : List (List String)
deriving DecidableEq

/-- `write_points` (src lines 411-432). Effects are explicit:
`buffer` is the buffer file before the call; `sinkOk` is whether
`write_api.write` succeeds (else it raises); `unlinkOk` is whether
`OFFLINE_BUFFER_FILE.unlink()` succeeds (an `OSError` is caught and only
logged); `persistOk` is whether `persist_offline_records`' atomic JSON
write succeeds (`try_write_json` catches `OSError`, leaving the previous
file in place). -/
def write_points (records : List Point) (buffer : Option (List String))
    (sinkOk unlinkOk persistOk : Bool) : WriteOutcome :=
  let previous := load_offline_records buffer
  let payload := previous ++ points_to_lines records
  if payload = [] then
    { success := true, buffer := buffer, sinkAttempts := [] }
  else if sinkOk then
    { success := true,
      buffer := match buffer with
                | some _ => if unlinkOk then none else buffer
                | none => none,
      sinkAttempts := [payload] }
  else
    { success := false,
      buffer := if persistOk then some payload else buffer,
      sinkAttempts := [payload] }

/-! ## Address Resolver (src lines 159-177) -/

/-- `resolve_influx_ip`. `cacheFile` is `influx_ip_cache.json` (`none` =
absent/undecodable); `dns` models `socket.getaddrinfo` (`none` =
`socket.gaierror`); `writeOk` is whether the cache rewrite succeeds.
Returns the Python pair `(ip, from_cache)` — `ip` is a `JVal` since the
cached value is returned as loaded (`vnull` is Python `None`) — together
with the cache file afterwards. -/
def resolve_influx_ip (cacheFile : Option JVal) (dns : String → Option String)
    (writeOk : Bool) (hostname : String) : (JVal × Bool) × Option JVal :=
  let cached := orChain [(cacheFile.getD .vnull)] (.vdict [])
  let cached_ip := if pyEqStr (jGet cached "host") hostname
                   then jGet cached "ip" else .vnull
  if hostname = "" then
    ((cached_ip, truthy cached_ip), cacheFile)
  else
    match dns hostname with
    | some ip =>
      let newFile :=
        if pyEqStr cached_ip ip then cacheFile
        else if writeOk then
          some (.vdict [("host", .vstr hostname), ("ip", .vstr ip)])
        else cacheFile
      ((.vstr ip, false), newFile)
    | none =>
      if truthy cached_ip then ((cached_ip, true), cacheFile)
      else ((.vnull, false), cacheFile)

/-! ## Credential cache (src lines 82-94) -/

/-- `load_token_cache`. `file` is `evohome_token.json` as loaded by
`load_json`; `now` is `time.time()`. A falsy document yields `None`.
A truthy `expires_at` is converted with `float(...)`; `TypeError` and
`ValueError` are swallowed (`pass`), keeping the cached data. The inline
`float` conversion has exactly `safe_float`'s semantics (a truthy value
is never Python `None`, the one case the two treat differently). -/
def load_token_cache (file : Option JVal) (now : ℚ) : Option JVal :=
  match file with
  | none => none
  | some data =>
    if ¬ truthy data then none
    else
      let expires_at := jGet data "expires_at"
      if truthy expires_at then
        match safe_float expires_at with
        | some f => if now > f - 60 then none else some data
        | none => some data
      else some data

/-! ## Spec-side definitions

These definitions transcribe the spec's words (not the code) and exist
only to be compared with the code-derived definitions above. -/

/-- The spec's §3 canonical measurement names for the two point kinds. -/
inductive SpecMeasurement where
  | zone
  | domestic_hot_water
deriving DecidableEq

/-- Spec §3: map the code's measurement strings to the spec's canonical
point kinds (`evohome_zone` ↦ `zone`, `evohome_dhw` ↦
`domestic_hot_water`). -/
def measurementKind (s : String) : Option SpecMeasurement :=
  if s = "evohome_zone" then some .zone
  else if s = "evohome_dhw" then some .domestic_hot_water
  else none

/-- The snapshot zone identity exactly as the claim words it: "the first
non-empty of zoneId, zoneID, id, then name, defaulting to the literal
unknown". -/
def spec_snapshot_identity_claimed (z : JVal) : String :=
  pyStr (orChain [jGet z "zoneId", jGet z "zoneID", jGet z "id", jGet z "name"]
    (.vstr "unknown"))

/-- The snapshot zone identity as amended to the code's order: the first
non-empty of id, zoneId, zoneID, then name, defaulting to "unknown". -/
def spec_snapshot_identity_amended (z : JVal) : String :=
  pyStr (orChain [jGet z "id", jGet z "zoneId", jGet z "zoneID", jGet z "name"]
    (.vstr "unknown"))

/-- The topology zone identity as the spec words it: the first non-empty
of zoneId, zoneID, id (zones with none of them are skipped, which the
code expresses with an empty-string sentinel). -/
def spec_topology_identity (z : JVal) : String :=
  pyStr (orChain [jGet z "zoneId", jGet z "zoneID", jGet z "id"] (.vstr ""))

/-! ## Helper lemmas -/

lemma fields_tag (p : Point) (k v : String) : (p.tag k v).fields = p.fields := rfl

lemma fields_field (p : Point) (k : String) (v : FieldVal) :
    (p.field k v).fields = p.fields ++ [(k, v)] := rfl

lemma fields_setTime (p : Point) (t : ℤ) : (p.setTime t).fields = p.fields := rfl

lemma tags_field (p : Point) (k : String) (v : FieldVal) :
    (p.field k v).tags = p.tags := rfl

lemma tags_setTime (p : Point) (t : ℤ) : (p.setTime t).tags = p.tags := rfl

lemma tags_tag (p : Point) (k v : String) : (p.tag k v).tags = p.tags ++ [(k, v)] := rfl

/-- A point with at least one field encodes to a non-empty line. -/
lemma to_line_protocol_ne_empty (p : Point) (hf : p.fields ≠ []) :
    to_line_protocol p ≠ "" := by
  rw [to_line_protocol, if_neg hf]
  intro h
  have hl := congrArg String.length h
  simp only [String.length_append] at hl
  have hsp : (" " : String).length = 1 := rfl
  have hemp : ("" : String).length = 0 := rfl
  rw [hsp, hemp] at hl
  omega

/-- The zero-field guard `if point.to_line_protocol():` is exactly a
non-empty-fields test. -/
lemma to_line_protocol_bool (p : Point) :
    (to_line_protocol p != "") = !p.fields.isEmpty := by
  rcases eq_or_ne p.fields [] with hf | hf
  · simp [to_line_protocol, hf]
  · have h := to_line_protocol_ne_empty p hf
    simp [bne_iff_ne, h, List.isEmpty_eq_false.mpr hf]

/-- `build_points` with the zero-field guard phrased on fields. -/
lemma build_points_filter_fields (temps : List JVal) (inst : JVal) (ts : ℤ) :
    build_points temps inst ts
      = (temps.map (build_zone_point ts (extract_zone_meta inst))).filter
          (fun p => !p.fields.isEmpty)
        ++ ((extract_dhw inst).map (build_dhw_point ts)).filter
          (fun p => !p.fields.isEmpty) := by
  unfold build_points
  simp only [to_line_protocol_bool]

lemma fields_addOpt (p : Point) (k : String) (o : Option ℚ) :
    (addOpt p k o).fields
      = p.fields ++ (match o with
                     | some v => [(k, FieldVal.fnum v)]
                     | none => []) := by
  cases o <;> simp [addOpt, fields_field]

lemma tags_addOpt (p : Point) (k : String) (o : Option ℚ) :
    (addOpt p k o).tags = p.tags := by
  cases o <;> rfl

lemma fields_addFaults (p : Point) (fv : JVal) :
    (addFaults p fv).fields
      = p.fields ++ (match fv with
                     | .vlist xs => [("fault_count", FieldVal.fint xs.length)]
                     | _ => []) := by
  cases fv <;> simp [addFaults, fields_field]

lemma tags_addFaults (p : Point) (fv : JVal) :
    (addFaults p fv).tags = p.tags := by
  cases fv <;> rfl

lemma fields_ite_tag (c : Bool) (p : Point) (k v : String) :
    (if c = true then p.tag k v else p).fields = p.fields := by
  cases c <;> rfl

lemma tags_ite_tag (c : Bool) (p : Point) (k v : String) :
    (if c = true then p.tag k v else p).tags
      = p.tags ++ (if c = true then [(k, v)] else []) := by
  cases c <;> simp [tags_tag]

lemma fields_ite_field (c : Bool) (p : Point) (k : String) (v : FieldVal) :
    (if c = true then p.field k v else p).fields
      = p.fields ++ (if c = true then [(k, v)] else []) := by
  cases c <;> simp [fields_field]

lemma tags_ite_field (c : Bool) (p : Point) (k : String) (v : FieldVal) :
    (if c = true then p.field k v else p).tags = p.tags := by
  cases c <;> rfl

/-- The field list of a zone point: the five candidate fields in source
order, each present exactly when the code emits it. -/
lemma build_zone_point_fields (ts : ℤ) (zm : List (String × ZoneMetaRec))
    (z : JVal) :
    (build_zone_point ts zm z).fields
      = (match zone_temp_value (zone_meta_of zm z) z with
         | some v => [("temperature", FieldVal.fnum v)]
         | none => [])
        ++ (match zone_setpoint_value (zone_meta_of zm z) z with
            | some v => [("setpoint", FieldVal.fnum v)]
            | none => [])
        ++ (match zone_heat_demand_value (zone_meta_of zm z) z with
            | some v => [("heat_demand", FieldVal.fnum v)]
            | none => [])
        ++ (if truthy (zone_status_value (zone_meta_of zm z) z)
            then [("status",
                   FieldVal.fstr (pyStr (zone_status_value (zone_meta_of zm z) z)))]
            else [])
        ++ (match zone_faults_value (zone_meta_of zm z) with
            | .vlist xs => [("fault_count", FieldVal.fint xs.length)]
            | _ => []) := by
  simp only [build_zone_point, fields_setTime, fields_addFaults, fields_ite_field,
    fields_addOpt, fields_ite_tag, List.nil_append, List.append_assoc]

/-- The tag list of a zone point: `zone_id` first, then the optional
`zone`, `system_id` and `zone_type` tags. -/
lemma build_zone_point_tags (ts : ℤ) (zm : List (String × ZoneMetaRec))
    (z : JVal) :
    (build_zone_point ts zm z).tags
      = [("zone_id", zone_snapshot_id z)]
        ++ (if truthy (jGet z "name")
            then [("zone", pyStr (jGet z "name"))] else [])
        ++ (if truthy (zone_meta_of zm z).system_id
            then [("system_id", pyStr (zone_meta_of zm z).system_id)] else [])
        ++ (if truthy (zone_meta_of zm z).zone_type
            then [("zone_type", pyStr (zone_meta_of zm z).zone_type)] else []) := by
  simp only [build_zone_point, tags_setTime, tags_addFaults, tags_ite_field,
    tags_addOpt, tags_ite_tag, List.append_assoc]

/-- The `zone_id` tag of a zone point is the snapshot identity. -/
lemma build_zone_point_zone_id (ts : ℤ) (zm : List (String × ZoneMetaRec))
    (z : JVal) :
    assocGet "zone_id" (build_zone_point ts zm z).tags
      = some (zone_snapshot_id z) := by
  rw [build_zone_point_tags]
  simp [assocGet]

/-! ## Claim theorems -/

/-- C1: for every delivery attempt whose sink write fails, the offline
buffer afterwards contains exactly the combined payload that was
attempted — the previously buffered lines first, followed by the newly
produced lines, with no line dropped, duplicated or added (the attempt
itself carried that same combined payload). The re-persisting disk write
is taken to succeed, as local persistence failure is a separate
best-effort concern (src line 431 / `try_write_json`). -/
theorem write_points_sink_failure_rebuffers_all (records : List Point)
    (buffer : Option (List String)) (unlinkOk : Bool)
    (hne : load_offline_records buffer ++ points_to_lines records ≠ []) :
    write_points records buffer false unlinkOk true
      = { success := false,
          buffer := some (load_offline_records buffer ++ points_to_lines records),
          sinkAttempts := [load_offline_records buffer ++ points_to_lines records] } := by
  unfold write_points
  simp [hne]

theorem write_points_sink_failure_rebuffers_all_witness :
    write_points [] (some ["zone v=1", "zone v=2"]) false true true
      = { success := false,
          buffer := some ["zone v=1", "zone v=2"],
          sinkAttempts := [["zone v=1", "zone v=2"]] } :=
  write_points_sink_failure_rebuffers_all [] (some ["zone v=1", "zone v=2"]) true
    (by decide)

/-- C8: whenever the combined payload (buffered plus new lines) is
empty, `write_points` reports success, hands nothing to the sink, and
leaves the offline buffer file untouched (src lines 415-417). -/
theorem write_points_empty_payload_noop (records : List Point)
    (buffer : Option (List String)) (sinkOk unlinkOk persistOk : Bool)
    (h : load_offline_records buffer ++ points_to_lines records = []) :
    write_points records buffer sinkOk unlinkOk persistOk
      = { success := true, buffer := buffer, sinkAttempts := [] } := by
  unfold write_points
  simp [h]

theorem write_points_empty_payload_noop_witness :
    write_points [] (some []) false false false
      = { success := true, buffer := some [], sinkAttempts := [] } :=
  write_points_empty_payload_noop [] (some []) false false false (by decide)

/-- C9: when the sink write of a non-empty combined payload succeeds but
deleting the offline buffer file fails (`OSError` on `unlink`, caught at
src lines 424-426), the call still returns success; the stale buffer
file keeps its old contents, which the next cycle would load and deliver
again. -/
theorem write_points_unlink_failure_keeps_buffer (records : List Point)
    (rs : List String) (persistOk : Bool)
    (hne : load_offline_records (some rs) ++ points_to_lines records ≠ []) :
    write_points records (some rs) true false persistOk
      = { success := true, buffer := some rs,
          sinkAttempts := [load_offline_records (some rs) ++ points_to_lines records] }
    ∧ load_offline_records
        (write_points records (some rs) true false persistOk).buffer = rs := by
  have hc : ¬ (rs = [] ∧ points_to_lines records = []) := by
    intro hand
    exact hne (by simp [load_offline_records, hand.1, hand.2])
  refine ⟨?_, ?_⟩ <;>
    · unfold write_points
      simp [load_offline_records, hc]

theorem write_points_unlink_failure_keeps_buffer_witness :
    write_points [] (some ["zone v=3"]) true false true
      = { success := true, buffer := some ["zone v=3"],
          sinkAttempts := [["zone v=3"]] }
    ∧ load_offline_records (write_points [] (some ["zone v=3"]) true false true).buffer
      = ["zone v=3"] :=
  write_points_unlink_failure_keeps_buffer [] ["zone v=3"] true (by decide)

/-- C5: for a non-empty hostname whose forward resolution fails, the
resolver falls back to the persisted IP cache: a cache entry recording
the same hostname with a (non-empty) IP yields `(ip, True)`; a cache
whose recorded hostname differs — or no cache at all — yields
`(None, False)` (src lines 159-177). -/
theorem resolve_influx_ip_dns_fallback (hostname : String)
    (dns : String → Option String) (writeOk : Bool)
    (d : List (String × JVal)) (ip : String)
    (hhost : hostname ≠ "") (hdns : dns hostname = none) :
    (assocGet "host" d = some (.vstr hostname) →
     assocGet "ip" d = some (.vstr ip) → ip ≠ "" →
     (resolve_influx_ip (some (.vdict d)) dns writeOk hostname).1
       = (.vstr ip, true))
    ∧ (pyEqStr ((assocGet "host" d).getD .vnull) hostname = false →
       (resolve_influx_ip (some (.vdict d)) dns writeOk hostname).1
         = (.vnull, false))
    ∧ (resolve_influx_ip none dns writeOk hostname).1 = (.vnull, false) := by
  refine ⟨?_, ?_, ?_⟩
  · intro hh hip hipne
    have hdne : d ≠ [] := by
      intro hdnil
      rw [hdnil] at hh
      exact Option.noConfusion hh
    unfold resolve_influx_ip
    rw [if_neg hhost, hdns]
    simp [orChain, truthy, jGet, hdne, hh, hip, pyEqStr, hipne]
  · intro hmiss
    rcases eq_or_ne d [] with hdnil | hdne
    · subst hdnil
      unfold resolve_influx_ip
      rw [if_neg hhost, hdns]
      simp [orChain, truthy, jGet, assocGet, pyEqStr]
    · unfold resolve_influx_ip
      rw [if_neg hhost, hdns]
      simp [orChain, truthy, jGet, hdne, hmiss]
  · unfold resolve_influx_ip
    rw [if_neg hhost, hdns]
    simp [orChain, truthy, jGet, assocGet, pyEqStr]

theorem resolve_influx_ip_dns_fallback_witness :
    (resolve_influx_ip
        (some (.vdict [("host", .vstr "sink.example"), ("ip", .vstr "10.0.0.5")]))
        (fun _ => none) true "sink.example").1
      = (.vstr "10.0.0.5", true)
    ∧ (resolve_influx_ip
        (some (.vdict [("host", .vstr "sink.example"), ("ip", .vstr "10.0.0.5")]))
        (fun _ => none) true "other.example").1
      = (.vnull, false) :=
  ⟨(resolve_influx_ip_dns_fallback "sink.example" (fun _ => none) true
      [("host", .vstr "sink.example"), ("ip", .vstr "10.0.0.5")] "10.0.0.5"
      (by decide) rfl).1 rfl rfl (by decide),
   (resolve_influx_ip_dns_fallback "other.example" (fun _ => none) true
      [("host", .vstr "sink.example"), ("ip", .vstr "10.0.0.5")] "10.0.0.5"
      (by decide) rfl).2.1 (by decide)⟩

/-- C7 counterexample: with a cache entry `{host: "sink.example",
ip: "10.0.0.5"}` present, resolving the empty hostname returns no IP
(`(None, False)`), because the cached IP is only consulted when the
cached hostname equals the requested one — here `"" ≠ "sink.example"`
(src line 162). The claim says the cached IP would be returned whenever
the cache holds an entry. -/
theorem resolve_empty_hostname_counterexample :
    (resolve_influx_ip
        (some (.vdict [("host", .vstr "sink.example"), ("ip", .vstr "10.0.0.5")]))
        (fun _ => none) true "").1
      = (.vnull, false) := rfl

/-- C7 as amended: for the empty hostname the resolver still applies the
host-match rule. It returns the cached IP (with `from_cache = True`)
only when the cache's recorded hostname is itself the empty string and
the cached IP is truthy; with a cache recording any other hostname it
returns `(None, False)`; with no cache file it returns `(None, False)`.
The cache file is never modified on this path. -/
theorem resolve_empty_hostname_amended (cacheFile : Option JVal)
    (dns : String → Option String) (writeOk : Bool) :
    (∀ d : List (String × JVal), cacheFile = some (.vdict d) →
     pyEqStr ((assocGet "host" d).getD .vnull) "" = false →
     resolve_influx_ip cacheFile dns writeOk "" = ((.vnull, false), cacheFile))
    ∧ (∀ (d : List (String × JVal)) (ipv : JVal), cacheFile = some (.vdict d) →
       assocGet "host" d = some (.vstr "") →
       assocGet "ip" d = some ipv → truthy ipv = true →
       resolve_influx_ip cacheFile dns writeOk "" = ((ipv, true), cacheFile))
    ∧ (cacheFile = none →
       resolve_influx_ip cacheFile dns writeOk "" = ((.vnull, false), none)) := by
  refine ⟨?_, ?_, ?_⟩
  · intro d hfile hmiss
    subst hfile
    rcases eq_or_ne d [] with hdnil | hdne
    · subst hdnil
      unfold resolve_influx_ip
      simp [orChain, truthy, jGet, assocGet, pyEqStr]
    · unfold resolve_influx_ip
      simp [orChain, truthy, jGet, hdne, hmiss]
  · intro d ipv hfile hh hip hipt
    subst hfile
    have hdne : d ≠ [] := by
      intro hdnil
      rw [hdnil] at hh
      exact Option.noConfusion hh
    have htd : truthy (JVal.vdict d) = true := by
      simp [truthy, List.isEmpty_eq_false.mpr hdne]
    unfold resolve_influx_ip
    simp [orChain, jGet, htd, hdne, hh, hip, pyEqStr, hipt]
  · intro hfile
    subst hfile
    unfold resolve_influx_ip
    simp [orChain, truthy, jGet, assocGet, pyEqStr]

theorem resolve_empty_hostname_amended_witness :
    resolve_influx_ip
        (some (.vdict [("host", .vstr "sink.example"), ("ip", .vstr "10.0.0.5")]))
        (fun _ => none) true ""
      = ((.vnull, false),
         some (.vdict [("host", .vstr "sink.example"), ("ip", .vstr "10.0.0.5")]))
    ∧ resolve_influx_ip (some (.vdict [("host", .vstr ""), ("ip", .vstr "10.0.0.9")]))
        (fun _ => none) true ""
      = ((.vstr "10.0.0.9", true),
         some (.vdict [("host", .vstr ""), ("ip", .vstr "10.0.0.9")])) :=
  ⟨(resolve_empty_hostname_amended
      (some (.vdict [("host", .vstr "sink.example"), ("ip", .vstr "10.0.0.5")]))
      (fun _ => none) true).1 _ rfl (by decide),
   (resolve_empty_hostname_amended
      (some (.vdict [("host", .vstr ""), ("ip", .vstr "10.0.0.9")]))
      (fun _ => none) true).2.1 _ (.vstr "10.0.0.9") rfl rfl rfl (by decide)⟩

/-- C10: loading the credential cache (for a non-empty cached document):
an `expires_at` that `float()` cannot convert is treated as no expiry
and the cached data is returned; a convertible `expires_at` `f` causes
the token to be ignored exactly when `now > f - 60` (within 60 seconds
of, or past, expiry); a falsy `expires_at` skips the check entirely
(src lines 82-94). -/
theorem load_token_cache_expiry_policy (d : List (String × JVal)) (now : ℚ)
    (hne : d ≠ []) :
    (safe_float (jGet (.vdict d) "expires_at") = none →
     load_token_cache (some (.vdict d)) now = some (.vdict d))
    ∧ (∀ f, safe_float (jGet (.vdict d) "expires_at") = some f →
       truthy (jGet (.vdict d) "expires_at") = true →
       (load_token_cache (some (.vdict d)) now = none ↔ now > f - 60))
    ∧ (truthy (jGet (.vdict d) "expires_at") = false →
       load_token_cache (some (.vdict d)) now = some (.vdict d)) := by
  have htd : truthy (JVal.vdict d) = true := by
    simp [truthy, List.isEmpty_eq_false.mpr hne]
  refine ⟨?_, ?_, ?_⟩
  · intro hsf
    unfold load_token_cache
    rcases htr : truthy (jGet (.vdict d) "expires_at") with _ | _ <;>
      simp [htd, htr, hsf]
  · intro f hsf htr
    unfold load_token_cache
    by_cases hnow : now > f - 60 <;> simp [htd, htr, hsf, hnow]
  · intro htr
    unfold load_token_cache
    simp [htd, htr]

theorem load_token_cache_expiry_policy_witness :
    load_token_cache
        (some (.vdict [("access_token", .vstr "tok"), ("expires_at", .vstr "soon")]))
        1000
      = some (.vdict [("access_token", .vstr "tok"), ("expires_at", .vstr "soon")]) :=
  (load_token_cache_expiry_policy
      [("access_token", .vstr "tok"), ("expires_at", .vstr "soon")] 1000
      (List.cons_ne_nil _ _)).1 (by decide)

/-- C2 counterexample: a zone snapshot from which no temperature,
setpoint, heat-demand, status or fault value is derivable (an empty
record, with an empty topology) still yields a point — `fault_count = 0`
is emitted unconditionally, because `meta.get("active_faults") or []`
is a list even when no metadata exists for the zone (src lines 361-363).
The claim says such a zone produces no point. -/
theorem zero_derivable_zone_still_yields_point :
    build_points [.vdict []] (.vdict []) 0
      = [{ name := "evohome_zone", tags := [("zone_id", "unknown")],
           fields := [("fault_count", .fint 0)], time := some 0 }] := by
  rw [build_points_filter_fields]
  rfl

/-- C2 as amended: every zone snapshot yields a point (it always carries
at least the `fault_count` field, 0 when no metadata or faults exist),
so the second half of the claim stands on its own: every point output by
`build_points` carries at least one field — zero-field points (possible
only for DHW records) are dropped by the line-protocol guard. -/
theorem build_points_every_point_has_a_field (temps : List JVal) (inst : JVal)
    (ts : ℤ) (p : Point) (hp : p ∈ build_points temps inst ts) :
    p.fields ≠ [] := by
  rw [build_points_filter_fields] at hp
  rcases List.mem_append.mp hp with h | h <;>
  · have hf := (List.mem_filter.mp h).2
    simp only [Bool.not_eq_eq_eq_not, Bool.not_true] at hf
    exact List.isEmpty_eq_false.mp (by simpa using hf)

theorem build_points_every_point_has_a_field_witness :
    ({ name := "evohome_zone", tags := [("zone_id", "unknown")],
       fields := [("fault_count", .fint 0)], time := some 0 } : Point).fields ≠ [] :=
  build_points_every_point_has_a_field [.vdict []] (.vdict []) 0 _ (by decide)

/-- The C3 snapshot: `[{id: "Z1", temp: "21.5"}]`. -/
def c3_snapshot : JVal := .vdict [("id", .vstr "Z1"), ("temp", .vstr "21.5")]

/-- The C3 topology: zone `Z1` with `zoneType: "RadiatorZone"` and an
empty active-faults list. -/
def c3_topology : JVal :=
  .vdict [("gateways", .vlist [
    .vdict [("temperatureControlSystems", .vlist [
      .vdict [("zones", .vlist [
        .vdict [("zoneId", .vstr "Z1"), ("zoneType", .vstr "RadiatorZone"),
                ("activeFaults", .vlist [])]])]])]])]

/-- C3: the end-to-end scenario. The snapshot `[{id:"Z1", temp:"21.5"}]`
with a topology containing zone `Z1` of type `RadiatorZone` and no
active faults yields exactly one point of the spec's `zone` kind, tagged
`zone_id = Z1` and `zone_type = RadiatorZone`, with fields
`temperature = 21.5` and `fault_count = 0`. -/
theorem build_points_end_to_end_scenario (ts : ℤ) :
    build_points [c3_snapshot] c3_topology ts
      = [{ name := "evohome_zone",
           tags := [("zone_id", "Z1"), ("zone_type", "RadiatorZone")],
           fields := [("temperature", .fnum (43 / 2)), ("fault_count", .fint 0)],
           time := some ts }]
    ∧ measurementKind "evohome_zone" = some SpecMeasurement.zone := by
  constructor
  · have e : ((21 : ℕ) : ℚ) + ((5 : ℕ) : ℚ) / (10 : ℚ) ^ (1 : ℕ) = 43 / 2 := by
      norm_num
    rw [build_points_filter_fields, ← e]
    rfl
  · rfl

/-- C4: for any zone snapshot and metadata index, each numeric field
prefers the snapshot's own value and falls back to the corresponding
ZoneMeta value exactly when the snapshot's value is absent or
non-numeric — temperature from `temperature_status.temperature`,
setpoint from `setpoint_status.targetHeatTemperature`, heat demand from
`heat_demand` (src lines 339-355). -/
theorem build_zone_point_fallback_precedence (z : JVal)
    (zm : List (String × ZoneMetaRec)) (ts : ℤ) :
    (∀ v, safe_float (jGet z "temp") = some v →
       assocGet "temperature" (build_zone_point ts zm z).fields
         = some (.fnum v))
    ∧ (∀ v, safe_float (jGet z "temp") = none →
       safe_float (jGet (orChain [(zone_meta_of zm z).temperature_status]
           (.vdict [])) "temperature") = some v →
       assocGet "temperature" (build_zone_point ts zm z).fields
         = some (.fnum v))
    ∧ (∀ v, safe_float (jGet z "setpoint") = some v →
       assocGet "setpoint" (build_zone_point ts zm z).fields = some (.fnum v))
    ∧ (∀ v, safe_float (jGet z "setpoint") = none →
       safe_float (jGet (orChain [(zone_meta_of zm z).setpoint_status]
           (.vdict [])) "targetHeatTemperature") = some v →
       assocGet "setpoint" (build_zone_point ts zm z).fields = some (.fnum v))
    ∧ (∀ v, safe_float (jGet z "heat_demand") = some v →
       assocGet "heat_demand" (build_zone_point ts zm z).fields
         = some (.fnum v))
    ∧ (∀ v, safe_float (jGet z "heat_demand") = none →
       safe_float (zone_meta_of zm z).heat_demand = some v →
       assocGet "heat_demand" (build_zone_point ts zm z).fields
         = some (.fnum v)) := by
  refine ⟨?_, ?_, ?_, ?_, ?_, ?_⟩
  · intro v hv
    have h1 : zone_temp_value (zone_meta_of zm z) z = some v := by
      unfold zone_temp_value; rw [hv]
    rw [build_zone_point_fields, h1]
    simp [assocGet]
  · intro v hv hv2
    have h1 : zone_temp_value (zone_meta_of zm z) z = some v := by
      unfold zone_temp_value; rw [hv]; exact hv2
    rw [build_zone_point_fields, h1]
    simp [assocGet]
  · intro v hv
    have h2 : zone_setpoint_value (zone_meta_of zm z) z = some v := by
      unfold zone_setpoint_value; rw [hv]
    rw [build_zone_point_fields, h2]
    cases ht : zone_temp_value (zone_meta_of zm z) z <;> simp [ht, assocGet]
  · intro v hv hv2
    have h2 : zone_setpoint_value (zone_meta_of zm z) z = some v := by
      unfold zone_setpoint_value; rw [hv]; exact hv2
    rw [build_zone_point_fields, h2]
    cases ht : zone_temp_value (zone_meta_of zm z) z <;> simp [ht, assocGet]
  · intro v hv
    have h3 : zone_heat_demand_value (zone_meta_of zm z) z = some v := by
      unfold zone_heat_demand_value; rw [hv]
    rw [build_zone_point_fields, h3]
    cases ht : zone_temp_value (zone_meta_of zm z) z <;>
    cases hs : zone_setpoint_value (zone_meta_of zm z) z <;>
      simp [ht, hs, assocGet]
  · intro v hv hv2
    have h3 : zone_heat_demand_value (zone_meta_of zm z) z = some v := by
      unfold zone_heat_demand_value; rw [hv]; exact hv2
    rw [build_zone_point_fields, h3]
    cases ht : zone_temp_value (zone_meta_of zm z) z <;>
    cases hs : zone_setpoint_value (zone_meta_of zm z) z <;>
      simp [ht, hs, assocGet]

theorem build_zone_point_fallback_precedence_witness :
    assocGet "temperature"
        (build_zone_point 0 [] (.vdict [("temp", .vnum 21)])).fields
      = some (.fnum 21)
    ∧ assocGet "temperature"
        (build_zone_point 0
          [("Z9", { emptyZoneMeta with
                    temperature_status := .vdict [("temperature", .vnum 19)] })]
          (.vdict [("id", .vstr "Z9")])).fields
      = some (.fnum 19) :=
  ⟨(build_zone_point_fallback_precedence (.vdict [("temp", .vnum 21)]) [] 0).1
      21 rfl,
   (build_zone_point_fallback_precedence (.vdict [("id", .vstr "Z9")])
      [("Z9", { emptyZoneMeta with
                temperature_status := .vdict [("temperature", .vnum 19)] })]
      0).2.1 19 rfl rfl⟩

/-- C6 counterexample: for the snapshot `{zoneId: "B", id: "A"}` the
code's identity (src line 328 checks `id` first) is `"A"`, while the
claim's stated precedence (zoneId before id, as in the topology walk)
would give `"B"`; the point is tagged `zone_id = "A"`. -/
theorem snapshot_identity_order_counterexample :
    zone_snapshot_id (.vdict [("zoneId", .vstr "B"), ("id", .vstr "A")]) = "A"
    ∧ spec_snapshot_identity_claimed
        (.vdict [("zoneId", .vstr "B"), ("id", .vstr "A")]) = "B"
    ∧ assocGet "zone_id"
        (build_zone_point 0 []
          (.vdict [("zoneId", .vstr "B"), ("id", .vstr "A")])).tags
      = some "A" :=
  ⟨rfl, rfl, rfl⟩

/-- C6 as amended: the snapshot identity is the first non-empty of
`id`, `zoneId`, `zoneID`, then `name`, defaulting to `"unknown"`; that
identity is what tags the point (`zone_id`) and what indexes the
ZoneMeta lookup. The topology walk itself uses `zoneId`/`zoneID`/`id`
as the spec states. -/
theorem snapshot_identity_amended_precedence (z : JVal)
    (zm : List (String × ZoneMetaRec)) (ts : ℤ) (zt : JVal) :
    zone_snapshot_id z = spec_snapshot_identity_amended z
    ∧ assocGet "zone_id" (build_zone_point ts zm z).tags
        = some (spec_snapshot_identity_amended z)
    ∧ zone_meta_of zm z
        = (assocGet (spec_snapshot_identity_amended z) zm).getD emptyZoneMeta
    ∧ meta_zone_id zt = spec_topology_identity zt := by
  have h : zone_snapshot_id z = spec_snapshot_identity_amended z := rfl
  exact ⟨h, by rw [build_zone_point_zone_id, h],
         by unfold zone_meta_of; rw [h], rfl⟩
